import Mathlib

/-!
Verification of the wifi guardrail engine (`src/planner.cpp`).

The planner stores one `AccessPoint` record per string identifier in a map
(`network_state`), and `process_request` evaluates a `ChangeRequest` against
three ordered guardrail policies (peak-hour window, change budget,
power hysteresis), mutating the stored record only when every applicable
policy passes.

Embedding notes:
* C++ `int` fields are modelled as `Int` (no overflow occurs at the values
  the policies compare).
* `std::map<std::string, AccessPoint>` is modelled as the finite-map
  semantics `String → Option AccessPoint`.
* The C++ `process_request` returns `bool` but each `return false` sits in
  a distinct branch with a distinct log line; the `Outcome` inductive tags
  exactly those return points (not-found, the three policy rejections, and
  acceptance).
-/

namespace Guardrail

/-- `const int CHANGE_BUDGET_MINUTES = 4 * 60;` -/
def CHANGE_BUDGET_MINUTES : Int := 4 * 60

/-- `const int HYSTERESIS_THRESHOLD_DB = 2;` -/
def HYSTERESIS_THRESHOLD_DB : Int := 2

/-- `struct AccessPoint` from `planner.cpp`: the authoritative record of one
access point.  The C++ default member initializer for
`last_change_time_minutes` is `-CHANGE_BUDGET_MINUTES - 1`. -/
structure AccessPoint where
  id : String
  channel : Int
  power_db : Int
  last_change_time_minutes : Int := -CHANGE_BUDGET_MINUTES - 1
deriving Repr, DecidableEq

/-- `struct ChangeRequest` from `planner.cpp`: optional new channel, optional
new power, emergency flag (defaults mirror the C++ member initializers). -/
structure ChangeRequest where
  new_channel : Option Int := none
  new_power_db : Option Int := none
  is_emergency : Bool := false
deriving Repr, DecidableEq

/-- The three policy-rejection branches of `process_request`, identified by
their log lines (`Time Window (Peak Hour)`, `Budget`, `Hysteresis`). -/
inductive RejectReason where
  | PeakHourBlocked
  | BudgetExceeded
  | HysteresisBlocked
deriving Repr, DecidableEq

/-- The distinct return points of `process_request`: the not-found hard
error, a policy rejection, or acceptance. -/
inductive Outcome where
  | notFound
  | rejected (reason : RejectReason)
  | accepted
deriving Repr, DecidableEq

/-- The planner's `network_state` map: at most one record per identifier. -/
def NetworkState : Type := String → Option AccessPoint

/-- `SafeChangePlanner::add_ap`: `network_state[ap.id] = ap;` inserts or
replaces the record stored under `ap.id`. -/
def add_ap (st : NetworkState) (ap : AccessPoint) : NetworkState :=
  fun k => if k = ap.id then some ap else st k

/-- `SafeChangePlanner::get_ap_state`: `network_state.at(ap_id)`; `none`
models the `std::out_of_range` raised when the key is absent. -/
def get_ap_state (st : NetworkState) (ap_id : String) : Option AccessPoint :=
  st ap_id

/-- The mutation block of `process_request` after all guardrails pass:
apply `new_channel` / `new_power_db` when present and different from the
current value, and stamp `last_change_time_minutes` iff something changed. -/
def apply_request (ap : AccessPoint) (request : ChangeRequest)
    (current_time_minutes : Int) : AccessPoint :=
  let step1 : AccessPoint × Bool :=
    match request.new_channel with
    | some c => if ap.channel ≠ c then ({ ap with channel := c }, true) else (ap, false)
    | none => (ap, false)
  let step2 : AccessPoint × Bool :=
    match request.new_power_db with
    | some p =>
        if step1.1.power_db ≠ p then ({ step1.1 with power_db := p }, true)
        else (step1.1, false)
    | none => (step1.1, false)
  if step1.2 || step2.2 then
    { step2.1 with last_change_time_minutes := current_time_minutes }
  else
    step2.1

/-- `SafeChangePlanner::process_request`: look up the record, run the three
guardrails in order (peak hour, change budget, hysteresis), and on full pass
mutate the stored record in place. -/
def process_request (st : NetworkState) (ap_id : String)
    (request : ChangeRequest) (current_time_minutes : Int)
    (is_peak_hour : Bool) : Outcome × NetworkState :=
  match st ap_id with
  | none => (Outcome.notFound, st)
  | some ap =>
    if is_peak_hour && !request.is_emergency then
      (Outcome.rejected RejectReason.PeakHourBlocked, st)
    else
      let time_since_last_change := current_time_minutes - ap.last_change_time_minutes
      if time_since_last_change < CHANGE_BUDGET_MINUTES then
        (Outcome.rejected RejectReason.BudgetExceeded, st)
      else
        let hysteresis_hit : Bool :=
          match request.new_power_db with
          | some p => |p - ap.power_db| < HYSTERESIS_THRESHOLD_DB
          | none => false
        if hysteresis_hit then
          (Outcome.rejected RejectReason.HysteresisBlocked, st)
        else
          (Outcome.accepted,
            fun k =>
              if k = ap_id then some (apply_request ap request current_time_minutes)
              else st k)

/-- Boolean condition equivalent to the `changed` flag of the mutation block:
some supplied field differs from the record's current value. -/
def request_changes (ap : AccessPoint) (request : ChangeRequest) : Bool :=
  request.new_channel.any (fun c => ap.channel != c)
    || request.new_power_db.any (fun p => ap.power_db != p)

theorem apply_request_eq (ap : AccessPoint) (request : ChangeRequest) (t : Int) :
    apply_request ap request t =
      { id := ap.id
        channel := request.new_channel.getD ap.channel
        power_db := request.new_power_db.getD ap.power_db
        last_change_time_minutes :=
          if request_changes ap request then t
          else ap.last_change_time_minutes } := by
  unfold apply_request request_changes
  cases hc : request.new_channel <;> cases hp : request.new_power_db <;>
    simp [hc, hp, Option.getD, Option.any] <;> split_ifs <;>
    (cases ap; simp_all)

theorem process_request_some (st : NetworkState) (ap_id : String)
    (request : ChangeRequest) (t : Int) (peak : Bool) (ap : AccessPoint)
    (hreg : st ap_id = some ap) :
    process_request st ap_id request t peak =
      if peak && !request.is_emergency then
        (Outcome.rejected RejectReason.PeakHourBlocked, st)
      else if t - ap.last_change_time_minutes < CHANGE_BUDGET_MINUTES then
        (Outcome.rejected RejectReason.BudgetExceeded, st)
      else if (match request.new_power_db with
               | some p => (|p - ap.power_db| < HYSTERESIS_THRESHOLD_DB : Bool)
               | none => false) then
        (Outcome.rejected RejectReason.HysteresisBlocked, st)
      else
        (Outcome.accepted,
          fun k => if k = ap_id then some (apply_request ap request t) else st k) := by
  unfold process_request
  rw [hreg]

theorem process_request_not_accepted_state (st : NetworkState) (ap_id : String)
    (request : ChangeRequest) (t : Int) (peak : Bool)
    (h : (process_request st ap_id request t peak).1 ≠ Outcome.accepted) :
    (process_request st ap_id request t peak).2 = st := by
  cases hst : st ap_id with
  | none => unfold process_request; rw [hst]
  | some ap =>
      rw [process_request_some st ap_id request t peak ap hst] at h ⊢
      split_ifs at h ⊢ <;> simp_all

/- The fixture of the C++ unit tests in `main`: `AP-001` with channel 6,
power 20 dB and a budget-exhausted timestamp of 0. -/

def ap_test : AccessPoint :=
  { id := "AP-001", channel := 6, power_db := 20, last_change_time_minutes := 0 }

def st_test : NetworkState := add_ap (fun _ => none) ap_test

def scenario1 : Outcome × NetworkState :=
  process_request st_test "AP-001" { new_channel := some 11 } 100 false

def scenario2 : Outcome × NetworkState :=
  process_request scenario1.2 "AP-001" { new_channel := some 11 } 250 false

def scenario3 : Outcome × NetworkState :=
  process_request scenario2.2 "AP-001" { new_power_db := some 21 } 500 false

def scenario4 : Outcome × NetworkState :=
  process_request scenario3.2 "AP-001" { new_power_db := some 22 } 500 false

def scenario5 : Outcome × NetworkState :=
  process_request scenario4.2 "AP-001" { new_channel := some 1 } 800 true

def scenario6 : Outcome × NetworkState :=
  process_request scenario5.2 "AP-001"
    { new_channel := some 1, is_emergency := true } 800 true

def scenario7 : Outcome × NetworkState :=
  process_request scenario6.2 "AP-001" { new_channel := some 6 } 1100 false

example : scenario1.1 = Outcome.rejected RejectReason.BudgetExceeded := by decide

example : scenario2.1 = Outcome.accepted
    ∧ scenario2.2 "AP-001" =
        some { id := "AP-001", channel := 11, power_db := 20,
               last_change_time_minutes := 250 } := by decide

example : scenario3.1 = Outcome.rejected RejectReason.HysteresisBlocked := by decide

example : scenario4.1 = Outcome.accepted
    ∧ scenario4.2 "AP-001" =
        some { id := "AP-001", channel := 11, power_db := 22,
               last_change_time_minutes := 500 } := by decide

example : scenario5.1 = Outcome.rejected RejectReason.PeakHourBlocked := by decide

example : scenario6.1 = Outcome.accepted
    ∧ scenario6.2 "AP-001" =
        some { id := "AP-001", channel := 1, power_db := 22,
               last_change_time_minutes := 800 } := by decide

example : scenario7.1 = Outcome.accepted
    ∧ scenario7.2 "AP-001" =
        some { id := "AP-001", channel := 6, power_db := 22,
               last_change_time_minutes := 1100 } := by decide

/-- C1: for every registered device and every change request, if the
time-window policy does not fire (emergency request or off-peak) and
`current_time_minutes - last_change_time_minutes < CHANGE_BUDGET_MINUTES`,
`process_request` rejects with `BudgetExceeded` regardless of every other
request field (in particular `is_emergency = true` does not bypass it) and
leaves the store unchanged. -/
theorem budget_policy_rejects_unconditionally
    (st : NetworkState) (ap_id : String) (request : ChangeRequest)
    (t : Int) (peak : Bool) (ap : AccessPoint)
    (hreg : st ap_id = some ap)
    (hwin : request.is_emergency = true ∨ peak = false)
    (hbud : t - ap.last_change_time_minutes < CHANGE_BUDGET_MINUTES) :
    process_request st ap_id request t peak
      = (Outcome.rejected RejectReason.BudgetExceeded, st) := by
  rw [process_request_some st ap_id request t peak ap hreg]
  have hcond : (peak && !request.is_emergency) = false := by
    rcases hwin with h | h <;> simp [h]
  simp [hcond, hbud]

/-- Witness for C1: an emergency request during peak hour is still rejected
for budget at `T = 100` against a record last changed at `T = 0`. -/
theorem budget_policy_rejects_unconditionally_witness :
    process_request st_test "AP-001"
        { new_channel := some 11, new_power_db := some 30, is_emergency := true }
        100 true
      = (Outcome.rejected RejectReason.BudgetExceeded, st_test) :=
  budget_policy_rejects_unconditionally st_test "AP-001"
    { new_channel := some 11, new_power_db := some 30, is_emergency := true }
    100 true ap_test (by decide) (Or.inl rfl) (by decide)

/-- C2: every non-emergency request evaluated during peak hour is rejected
`PeakHourBlocked`, with precedence over the budget and hysteresis checks
(the request is otherwise arbitrary), and an emergency request is never
rejected by the time-window policy. -/
theorem peak_hour_policy_precedence
    (st : NetworkState) (ap_id : String) (request : ChangeRequest)
    (t : Int) (peak : Bool) (ap : AccessPoint)
    (hreg : st ap_id = some ap) :
    (peak = true → request.is_emergency = false →
        process_request st ap_id request t peak
          = (Outcome.rejected RejectReason.PeakHourBlocked, st))
    ∧ (request.is_emergency = true →
        (process_request st ap_id request t peak).1
          ≠ Outcome.rejected RejectReason.PeakHourBlocked) := by
  rw [process_request_some st ap_id request t peak ap hreg]
  constructor
  · intro hp he
    simp [hp, he]
  · intro he
    simp only [he]
    split_ifs <;> simp_all

/-- Witness for C2: at `T = 100` the request would also fail the budget
check, yet the reported reason is peak-hour. -/
theorem peak_hour_policy_precedence_witness :
    process_request st_test "AP-001" { new_channel := some 11 } 100 true
      = (Outcome.rejected RejectReason.PeakHourBlocked, st_test) :=
  (peak_hour_policy_precedence st_test "AP-001" { new_channel := some 11 }
    100 true ap_test (by decide)).1 rfl rfl

/-- C3: once the time-window and budget policies pass, a request carrying a
power value within `HYSTERESIS_THRESHOLD_DB` of the current power is
rejected `HysteresisBlocked` (whatever its channel field holds), and a
request with no power value is never rejected by hysteresis. -/
theorem hysteresis_policy
    (st : NetworkState) (ap_id : String) (request : ChangeRequest)
    (t : Int) (peak : Bool) (ap : AccessPoint)
    (hreg : st ap_id = some ap)
    (hwin : request.is_emergency = true ∨ peak = false)
    (hbud : CHANGE_BUDGET_MINUTES ≤ t - ap.last_change_time_minutes) :
    (∀ p, request.new_power_db = some p →
        |p - ap.power_db| < HYSTERESIS_THRESHOLD_DB →
        process_request st ap_id request t peak
          = (Outcome.rejected RejectReason.HysteresisBlocked, st))
    ∧ (request.new_power_db = none →
        (process_request st ap_id request t peak).1
          ≠ Outcome.rejected RejectReason.HysteresisBlocked) := by
  rw [process_request_some st ap_id request t peak ap hreg]
  have hcond : (peak && !request.is_emergency) = false := by
    rcases hwin with h | h <;> simp [h]
  have hb : ¬ (t - ap.last_change_time_minutes < CHANGE_BUDGET_MINUTES) :=
    not_lt.mpr hbud
  constructor
  · intro p hp hlt
    simp [hcond, hb, hp, hlt]
  · intro hp
    simp [hcond, hb, hp]

/-- Witness for C3: at `T = 250` (budget passed, off-peak) a request for
power 21 against current power 20 has delta 1 < 2 and is rejected by
hysteresis even though it also asks for a channel change. -/
theorem hysteresis_policy_witness :
    process_request st_test "AP-001"
        { new_channel := some 11, new_power_db := some 21 } 250 false
      = (Outcome.rejected RejectReason.HysteresisBlocked, st_test) :=
  (hysteresis_policy st_test "AP-001"
    { new_channel := some 11, new_power_db := some 21 } 250 false ap_test
    (by decide) (Or.inr rfl) (by decide)).1 21 rfl (by decide)

/-- C4: whenever `process_request` rejects for a policy reason, the whole
store — in particular the targeted record — is unchanged, so a subsequent
`get_ap_state` returns exactly the pre-request record. -/
theorem rejection_leaves_state_unchanged
    (st : NetworkState) (ap_id : String) (request : ChangeRequest)
    (t : Int) (peak : Bool) (r : RejectReason)
    (h : (process_request st ap_id request t peak).1 = Outcome.rejected r) :
    (process_request st ap_id request t peak).2 = st
    ∧ ∀ k, get_ap_state (process_request st ap_id request t peak).2 k
        = get_ap_state st k := by
  have h2 : (process_request st ap_id request t peak).2 = st :=
    process_request_not_accepted_state st ap_id request t peak
      (by rw [h]; simp)
  exact ⟨h2, fun k => by rw [get_ap_state, get_ap_state, h2]⟩

/-- Witness for C4: after the budget rejection at `T = 100`, `get_ap_state`
still returns the pre-request record. -/
theorem rejection_leaves_state_unchanged_witness :
    (process_request st_test "AP-001" { new_channel := some 11 } 100 false).2
      = st_test
    ∧ get_ap_state
        (process_request st_test "AP-001" { new_channel := some 11 } 100 false).2
        "AP-001" = get_ap_state st_test "AP-001" :=
  ⟨(rejection_leaves_state_unchanged st_test "AP-001" { new_channel := some 11 }
      100 false RejectReason.BudgetExceeded (by decide)).1,
   (rejection_leaves_state_unchanged st_test "AP-001" { new_channel := some 11 }
      100 false RejectReason.BudgetExceeded (by decide)).2 "AP-001"⟩

/-- C5: a request that passes all applicable policies is accepted; each of
channel and power ends at the requested value when supplied (and at the old
value otherwise), the change timestamp becomes `current_time_minutes`
exactly when some supplied value differed from the current one, and a no-op
accepted request leaves the whole record — timestamp included — untouched. -/
theorem accepted_request_mutation
    (st : NetworkState) (ap_id : String) (request : ChangeRequest)
    (t : Int) (peak : Bool) (ap : AccessPoint)
    (hreg : st ap_id = some ap)
    (hwin : request.is_emergency = true ∨ peak = false)
    (hbud : CHANGE_BUDGET_MINUTES ≤ t - ap.last_change_time_minutes)
    (hhyst : ∀ p, request.new_power_db = some p →
        HYSTERESIS_THRESHOLD_DB ≤ |p - ap.power_db|) :
    (process_request st ap_id request t peak).1 = Outcome.accepted
    ∧ (process_request st ap_id request t peak).2 ap_id =
        some { id := ap.id
               channel := request.new_channel.getD ap.channel
               power_db := request.new_power_db.getD ap.power_db
               last_change_time_minutes :=
                 if request_changes ap request then t
                 else ap.last_change_time_minutes }
    ∧ (request_changes ap request = false →
        (process_request st ap_id request t peak).2 ap_id = some ap) := by
  rw [process_request_some st ap_id request t peak ap hreg]
  have hcond : (peak && !request.is_emergency) = false := by
    rcases hwin with h | h <;> simp [h]
  have hb : ¬ (t - ap.last_change_time_minutes < CHANGE_BUDGET_MINUTES) :=
    not_lt.mpr hbud
  have hh : (match request.new_power_db with
      | some p => (|p - ap.power_db| < HYSTERESIS_THRESHOLD_DB : Bool)
      | none => false) = false := by
    cases hp : request.new_power_db with
    | none => rfl
    | some p => exact decide_eq_false (not_lt.mpr (hhyst p hp))
  refine ⟨by simp [hcond, hb, hh], ?_, ?_⟩
  · simp [hcond, hb, hh, apply_request_eq]
  · intro hnc
    have hch : request.new_channel.getD ap.channel = ap.channel := by
      unfold request_changes at hnc
      cases hc : request.new_channel with
      | none => rfl
      | some c =>
          simp [hc] at hnc ⊢
          omega
    have hpw : request.new_power_db.getD ap.power_db = ap.power_db := by
      unfold request_changes at hnc
      cases hp : request.new_power_db with
      | none => rfl
      | some p =>
          simp [hp] at hnc ⊢
          omega
    simp [hcond, hb, hh, apply_request_eq, hnc, hch, hpw]

/-- Witness for C5: the accepted channel change at `T = 250` sets channel 11
and stamps the timestamp. -/
theorem accepted_request_mutation_witness :
    (process_request st_test "AP-001" { new_channel := some 11 } 250 false).1
      = Outcome.accepted
    ∧ (process_request st_test "AP-001" { new_channel := some 11 } 250 false).2
        "AP-001"
      = some { id := "AP-001", channel := 11, power_db := 20,
               last_change_time_minutes := 250 } := by
  have h := accepted_request_mutation st_test "AP-001" { new_channel := some 11 }
    250 false ap_test (by decide) (Or.inr rfl) (by decide)
    (by intro p hp; simp at hp)
  refine ⟨h.1, ?_⟩
  rw [h.2.1]
  decide

/-- C6: `process_request` ends in the `notFound` hard error exactly when the
identifier names no registered device (leaving the store unchanged), and
that outcome is distinct from every policy rejection. -/
theorem notFound_iff_unregistered
    (st : NetworkState) (ap_id : String) (request : ChangeRequest)
    (t : Int) (peak : Bool) :
    ((process_request st ap_id request t peak).1 = Outcome.notFound
        ↔ st ap_id = none)
    ∧ (st ap_id = none →
        process_request st ap_id request t peak = (Outcome.notFound, st))
    ∧ (∀ r, Outcome.notFound ≠ Outcome.rejected r) := by
  refine ⟨⟨?_, ?_⟩, ?_, ?_⟩
  · intro h
    cases hst : st ap_id with
    | none => rfl
    | some ap =>
        rw [process_request_some st ap_id request t peak ap hst] at h
        split_ifs at h
  · intro h
    unfold process_request
    rw [h]
  · intro h
    unfold process_request
    rw [h]
  · intro r h
    exact Outcome.noConfusion h

/-- Witness for C6: an identifier absent from the store yields `notFound`
and an unchanged store. -/
theorem notFound_iff_unregistered_witness :
    process_request st_test "AP-404" { new_channel := some 1 } 0 false
      = (Outcome.notFound, st_test) :=
  (notFound_iff_unregistered st_test "AP-404" { new_channel := some 1 }
    0 false).2.1 (by decide)

/-- C7: `add_ap` always succeeds: afterwards the store maps `ap.id` to
exactly the supplied record (replacing any prior record, history included)
and maps every other identifier to what it held before. -/
theorem add_ap_replaces_exactly (st : NetworkState) (ap : AccessPoint) :
    add_ap st ap ap.id = some ap
    ∧ ∀ k, k ≠ ap.id → add_ap st ap k = st k := by
  constructor
  · simp [add_ap]
  · intro k hk
    simp [add_ap, hk]

/-- Witness for C7: re-registering `AP-001` over the test fixture replaces
the record (including its timestamp) and leaves `AP-002` untouched. -/
theorem add_ap_replaces_exactly_witness :
    add_ap st_test
        { id := "AP-001", channel := 1, power_db := 5,
          last_change_time_minutes := 7 } "AP-001"
      = some { id := "AP-001", channel := 1, power_db := 5,
               last_change_time_minutes := 7 }
    ∧ add_ap st_test
        { id := "AP-001", channel := 1, power_db := 5,
          last_change_time_minutes := 7 } "AP-002"
      = st_test "AP-002" :=
  ⟨(add_ap_replaces_exactly st_test
      { id := "AP-001", channel := 1, power_db := 5,
        last_change_time_minutes := 7 }).1,
   (add_ap_replaces_exactly st_test
      { id := "AP-001", channel := 1, power_db := 5,
        last_change_time_minutes := 7 }).2 "AP-002" (by decide)⟩

/-- C8: a device registered with the default timestamp
`-CHANGE_BUDGET_MINUTES - 1` has, at every time `t ≥ 0`, an elapsed time of
at least `CHANGE_BUDGET_MINUTES`, so its first change is never rejected
with `BudgetExceeded`. -/
theorem default_timestamp_first_change_in_budget
    (st : NetworkState) (ap_id : String) (request : ChangeRequest)
    (t : Int) (peak : Bool) (id0 : String) (ch pw : Int)
    (hreg : st ap_id = some { id := id0, channel := ch, power_db := pw })
    (ht : 0 ≤ t) :
    CHANGE_BUDGET_MINUTES ≤
        t - ({ id := id0, channel := ch, power_db := pw }
              : AccessPoint).last_change_time_minutes
    ∧ (process_request st ap_id request t peak).1
        ≠ Outcome.rejected RejectReason.BudgetExceeded := by
  have hlast : ({ id := id0, channel := ch, power_db := pw }
      : AccessPoint).last_change_time_minutes = -CHANGE_BUDGET_MINUTES - 1 := rfl
  have helapsed : CHANGE_BUDGET_MINUTES ≤
      t - ({ id := id0, channel := ch, power_db := pw }
            : AccessPoint).last_change_time_minutes := by
    rw [hlast]
    unfold CHANGE_BUDGET_MINUTES
    omega
  refine ⟨helapsed, ?_⟩
  have hb := not_lt.mpr helapsed
  rw [process_request_some st ap_id request t peak _ hreg]
  split_ifs <;> simp_all

/-- Witness for C8: a freshly registered device with the default timestamp
accepts a change already at `t = 0`. -/
theorem default_timestamp_first_change_in_budget_witness :
    CHANGE_BUDGET_MINUTES ≤
        (0 : Int) - ({ id := "AP-002", channel := 1, power_db := 10 }
              : AccessPoint).last_change_time_minutes
    ∧ (process_request
          (add_ap (fun _ => none) { id := "AP-002", channel := 1, power_db := 10 })
          "AP-002" { new_channel := some 6 } 0 false).1
        ≠ Outcome.rejected RejectReason.BudgetExceeded :=
  default_timestamp_first_change_in_budget
    (add_ap (fun _ => none) { id := "AP-002", channel := 1, power_db := 10 })
    "AP-002" { new_channel := some 6 } 0 false "AP-002" 1 10
    (by decide) (by decide)

/-- C9: one evaluation touches at most the record it targets: whatever the
outcome, every identifier other than the requested one maps to the same
record after the call as before. -/
theorem evaluation_frame
    (st : NetworkState) (ap_id : String) (request : ChangeRequest)
    (t : Int) (peak : Bool) (k : String) (hk : k ≠ ap_id) :
    (process_request st ap_id request t peak).2 k = st k := by
  cases hst : st ap_id with
  | none => unfold process_request; rw [hst]
  | some ap =>
      rw [process_request_some st ap_id request t peak ap hst]
      split_ifs <;> simp [hk]

/-- Witness for C9: the accepted change to `AP-001` at `T = 250` leaves the
entry of `AP-002` untouched. -/
theorem evaluation_frame_witness :
    (process_request st_test "AP-001" { new_channel := some 11 } 250 false).2
        "AP-002" = st_test "AP-002" :=
  evaluation_frame st_test "AP-001" { new_channel := some 11 } 250 false
    "AP-002" (by decide)

/-- C10: the accept/reject decision (outcome and reason) never depends on
the requested channel: two requests agreeing on power and emergency flag
but differing arbitrarily in `new_channel` get the same outcome. -/
theorem decision_ignores_channel
    (st : NetworkState) (ap_id : String) (r1 r2 : ChangeRequest)
    (t : Int) (peak : Bool)
    (hp : r1.new_power_db = r2.new_power_db)
    (he : r1.is_emergency = r2.is_emergency) :
    (process_request st ap_id r1 t peak).1
      = (process_request st ap_id r2 t peak).1 := by
  cases hst : st ap_id with
  | none => unfold process_request; rw [hst]
  | some ap =>
      rw [process_request_some st ap_id r1 t peak ap hst,
        process_request_some st ap_id r2 t peak ap hst, hp, he]
      split_ifs <;> rfl

/-- Witness for C10: a channel-and-power request and the same request with
the channel dropped receive the same hysteresis rejection. -/
theorem decision_ignores_channel_witness :
    (process_request st_test "AP-001"
        { new_channel := some 11, new_power_db := some 21 } 250 false).1
      = (process_request st_test "AP-001"
        { new_power_db := some 21 } 250 false).1 :=
  decision_ignores_channel st_test "AP-001"
    { new_channel := some 11, new_power_db := some 21 }
    { new_power_db := some 21 } 250 false rfl rfl

end Guardrail
